import Mathlib

set_option maxRecDepth 40000

/-!
Verification of the formatting/dispatch logic of the Telegram MCQ bot
(`send_question.py`).  Python strings are modelled as lists of unicode
code points (`Str`), matching Python `len` and slicing semantics; the
network sends are modelled as a trace of `Send` values, and a raised
`ValueError` as `Except.error`.  Python `str.strip()` is modelled by
removing whitespace code points from both ends of the list.
-/

/-- A Python string, as its list of unicode code points. -/
abbrev Str := List Char

/-- Python `s.strip()`: drop whitespace from the front, then from the back. -/
def pyStrip (s : Str) : Str :=
  List.rdropWhile Char.isWhitespace (List.dropWhile Char.isWhitespace s)

/-- Constant `TELEGRAM_MESSAGE_LIMIT` from the source. -/
def TELEGRAM_MESSAGE_LIMIT : Nat := 4096

/-- Constant `TELEGRAM_POLL_QUESTION_LIMIT` from the source. -/
def TELEGRAM_POLL_QUESTION_LIMIT : Nat := 300

/-- Constant `TELEGRAM_POLL_OPTION_LIMIT` from the source. -/
def TELEGRAM_POLL_OPTION_LIMIT : Nat := 100

/-- The marker appended by `truncate_explanation`. -/
def explanationTruncMarker : Str := "\n\n... (શેષ ભાગ કાઢી નાખવામાં આવ્યો છે)".toList

/-- `truncate_explanation(explanation, max_length)` from the source. -/
def truncate_explanation (explanation : Str) (max_length : Nat) : Str :=
  if explanation.length ≤ max_length then explanation
  else explanation.take (max_length - 50) ++ explanationTruncMarker

/-- The `Question` record fetched from the sheet (fields used by the dispatcher). -/
structure Question where
  question : Str
  option_a : Str
  option_b : Str
  option_c : Str
  option_d : Str
  correct : Str
  explanation : Str
deriving DecidableEq, Repr

/-- One outbound send operation: a `sendMessage` call or a `sendPoll` call.
Constant payload fields (chat id, parse mode, preview flag) are omitted. -/
inductive Send where
  | message (text : Str)
  | poll (question : Str) (options : List Str) (pollType : Str) (correct_option_id : Int)
deriving DecidableEq, Repr

/-- The nondeterministic inputs of one run: the outcome of the HTTP quote
fetch (error, or the quote texts in their post-shuffle order), and whether
the promotional `sendMessage` call succeeds.  The primary sends are modelled
as always succeeding at the HTTP level; their only failures in the source
are the `ValueError` validations, which are modelled explicitly. -/
structure Env where
  quotesFetch : Except Str (List Str)
  promoSendOk : Bool

/-- The poll type string sent with every poll. -/
def quizType : Str := "quiz".toList

/-- The substitute text for an empty option at index `i`: Option A .. Option D. -/
def optionPlaceholder (i : Nat) : Str := "Option ".toList ++ [Char.ofNat (65 + i)]

/-- Strip an option, then truncate it to the option limit (97 code points
plus an ellipsis), as `send_telegram_poll` does after substitution. -/
def stripTruncOption (opt : Str) : Str :=
  if (pyStrip opt).length > TELEGRAM_POLL_OPTION_LIMIT
  then (pyStrip opt).take (TELEGRAM_POLL_OPTION_LIMIT - 3) ++ "...".toList
  else pyStrip opt

/-- The per-option loop body of `send_telegram_poll`: substitute a placeholder
for an empty or whitespace-only option, strip, then truncate to the option
limit. -/
def processOption (i : Nat) (opt : Str) : Str :=
  if pyStrip opt = [] then stripTruncOption (optionPlaceholder i)
  else stripTruncOption opt

/-- The full option list built by `send_telegram_poll` (enumerate then process). -/
def processedOptions (options : List Str) : List Str :=
  options.enum.map (fun p => processOption p.1 p.2)

/-- The poll prompt built by `send_telegram_poll`: strip, then truncate to the
poll question limit (297 code points plus an ellipsis). -/
def pollPrompt (question_text : Str) : Str :=
  if (pyStrip question_text).length > TELEGRAM_POLL_QUESTION_LIMIT
  then (pyStrip question_text).take (TELEGRAM_POLL_QUESTION_LIMIT - 3) ++ "...".toList
  else pyStrip question_text

/-- Message of the `ValueError` raised for an empty poll question. -/
def emptyQuestionError : Str := "Poll question cannot be empty".toList

/-- Message of the `ValueError` raised when fewer than 2 options remain. -/
def tooFewOptionsError : Str := "Poll must have at least 2 options".toList

/-- Message of the `ValueError` raised for an out-of-range correct index. -/
def invalidIndexError : Str := "Invalid correct_index".toList

/-- `send_telegram_poll(question_text, options, correct_index)` from the source:
validate the question, build the processed options, validate the option count
and the correct index, then issue the poll send. -/
def send_telegram_poll (question_text : Str) (options : List Str)
    (correct_index : Int) : Except Str Send :=
  if pyStrip question_text = [] then Except.error emptyQuestionError
  else if (processedOptions options).length < 2 then Except.error tooFewOptionsError
  else if correct_index < 0 ∨ ((processedOptions options).length : Int) ≤ correct_index then
    Except.error invalidIndexError
  else
    Except.ok (Send.poll (pollPrompt question_text) (processedOptions options)
      quizType correct_index)

/-- The scan loop of `fetch_random_quote`: first nonempty quote of length at
most 150 in the (shuffled) list, if any. -/
def findShortQuote : List Str → Option Str
  | [] => none
  | q :: rest => if q ≠ [] ∧ q.length ≤ 150 then some q else findShortQuote rest

/-- `fetch_random_quote()` from the source.  Any exception during the fetch is
caught and yields `none`; an empty quote list yields `none`; otherwise the
first short quote is returned, and if there is none, the first quote of the
shuffled list truncated to 150 code points. -/
def fetch_random_quote (env : Env) : Option Str :=
  match env.quotesFetch with
  | Except.error _ => none
  | Except.ok quotes =>
    if quotes = [] then none
    else
      match findShortQuote quotes with
      | some q => some q
      | none =>
        some (if (quotes.headD []).length > 150
              then (quotes.headD []).take 147 ++ "...".toList
              else quotes.headD [])

/-- The fixed marketing copy of the promotional message. -/
def promoBase : Str :=
  "📚 <b>Current Adda</b>\n🎯 <b>ગુજરાત સરકારી નોકરી તૈયારી</b>\n\n✅ દરરોજ MCQ પ્રશ્નો\n✅ ગુજરાતી કરંટ અફેર્સ\n\n🔔 <b>જોઈન કરો:</b> https://t.me/currentadda".toList

/-- The hashtag line appended to the promotional message. -/
def promoTags : Str := "\n\n<i>#GPSC #GSSSB #Talati #CurrentAffairs</i>".toList

/-- The promotional message text, with the quote block inserted when the
fetched quote is truthy (neither absent nor empty). -/
def promoMessage (quote : Option Str) : Str :=
  promoBase ++
    (match quote with
     | some q =>
       if q = [] then [] else "\n\n💡 <i>\"".toList ++ q ++ "\"</i>".toList
     | none => []) ++
    promoTags

/-- The body of the try block of `send_promotional_message`: fetch the quote
(itself exception-free), build the message, attempt the send. -/
def send_promotional_message_attempt (env : Env) : Except Str (List Send) :=
  if env.promoSendOk
  then Except.ok [Send.message (promoMessage (fetch_random_quote env))]
  else Except.error "promotional send failed".toList

/-- `send_promotional_message()` from the source: any exception from the send
is caught, logged, and swallowed, so the step always completes. -/
def send_promotional_message (env : Env) : List Send :=
  match send_promotional_message_attempt env with
  | Except.ok sends => sends
  | Except.error _ => []

/-- Header of the explanation message. -/
def explanationHeader : Str := "📘 <b>સમજૂતી:</b>\n".toList

/-- The explanation text actually embedded in the explanation message: the
source truncates it only when it exceeds the message limit. -/
def sentExplanation (explanation : Str) : Str :=
  if explanation.length > TELEGRAM_MESSAGE_LIMIT
  then truncate_explanation explanation TELEGRAM_MESSAGE_LIMIT
  else explanation

/-- The explanation sends of either branch of `format_and_send_question`:
one message when the explanation is nonempty, none otherwise. -/
def explanationSends (explanation : Str) : List Send :=
  if explanation = [] then []
  else [Send.message (explanationHeader ++ sentExplanation explanation)]

/-- Header of the hybrid-mode question message. -/
def questionHeader : Str := "❓ <b>પ્રશ્ન:</b>\n".toList

/-- The marker appended when the hybrid-mode question text is truncated. -/
def questionTruncMarker : Str := "\n\n... (પ્રશ્ન સંક્ષિપ્ત કરવામાં આવ્યો છે)".toList

/-- The fixed generic poll prompt of the hybrid path. -/
def genericPollPrompt : Str := "યોગ્ય વિકલ્પ પસંદ કરો:".toList

/-- The hybrid-path question text: truncated with a marker only when it
exceeds the message limit. -/
def hybridQuestionText (q_text : Str) : Str :=
  if q_text.length > TELEGRAM_MESSAGE_LIMIT
  then q_text.take (TELEGRAM_MESSAGE_LIMIT - 50) ++ questionTruncMarker
  else q_text

/-- The hybrid-path pre-truncation of one option to the option limit. -/
def hybridOption (opt : Str) : Str :=
  if opt.length > TELEGRAM_POLL_OPTION_LIMIT
  then opt.take (TELEGRAM_POLL_OPTION_LIMIT - 3) ++ "...".toList
  else opt

/-- The `correct_map` dictionary lookup with default 0. -/
def correct_map (c : Str) : Nat :=
  if c = ['A'] then 0
  else if c = ['B'] then 1
  else if c = ['C'] then 2
  else if c = ['D'] then 3
  else if c = ['a'] then 0
  else if c = ['b'] then 1
  else if c = ['c'] then 2
  else if c = ['d'] then 3
  else 0

/-- The options list `[opt_a, opt_b, opt_c, opt_d]` of a question. -/
def questionOptions (q : Question) : List Str :=
  [q.option_a, q.option_b, q.option_c, q.option_d]

/-- `max(option_lengths)` over the four options. -/
def maxOptionLength (q : Question) : Nat :=
  ((questionOptions q).map List.length).foldl max 0

/-- The computed correct index: `correct_map.get(correct.strip(), 0)`. -/
def correctIndex (q : Question) : Nat := correct_map (pyStrip q.correct)

/-- `format_and_send_question(question)` from the source, as the trace of
sends it issues, or the message of the `ValueError` that aborts it. -/
def format_and_send_question (q : Question) (env : Env) : Except Str (List Send) :=
  if q.question.length ≤ TELEGRAM_POLL_QUESTION_LIMIT ∧
      maxOptionLength q ≤ TELEGRAM_POLL_OPTION_LIMIT then
    match send_telegram_poll q.question (questionOptions q) (correctIndex q : Int) with
    | Except.error e => Except.error e
    | Except.ok poll =>
      Except.ok (poll :: (explanationSends q.explanation ++ send_promotional_message env))
  else
    match send_telegram_poll genericPollPrompt ((questionOptions q).map hybridOption)
        (correctIndex q : Int) with
    | Except.error e => Except.error e
    | Except.ok poll =>
      Except.ok (Send.message (questionHeader ++ hybridQuestionText q.question) ::
        poll :: (explanationSends q.explanation ++ send_promotional_message env))

/-- The question/poll/explanation sends of `format_and_send_question`, i.e.
its trace up to but not including the promotional step. -/
def primarySends (q : Question) : Except Str (List Send) :=
  if q.question.length ≤ TELEGRAM_POLL_QUESTION_LIMIT ∧
      maxOptionLength q ≤ TELEGRAM_POLL_OPTION_LIMIT then
    match send_telegram_poll q.question (questionOptions q) (correctIndex q : Int) with
    | Except.error e => Except.error e
    | Except.ok poll => Except.ok (poll :: explanationSends q.explanation)
  else
    match send_telegram_poll genericPollPrompt ((questionOptions q).map hybridOption)
        (correctIndex q : Int) with
    | Except.error e => Except.error e
    | Except.ok poll =>
      Except.ok (Send.message (questionHeader ++ hybridQuestionText q.question) ::
        poll :: explanationSends q.explanation)

/-! Concrete inputs used to exercise the claims. -/

/-- The worked example of the spec: a short question, four short options,
correct answer B, no explanation. -/
def qEx : Question :=
  ⟨"Capital of Gujarat?".toList, "Ahmedabad".toList, "Gandhinagar".toList,
    "Surat".toList, "Vadodara".toList, "B".toList, []⟩

/-- A question whose text carries a leading space. -/
def qPad : Question :=
  ⟨[' ', 'x'], "a".toList, "b".toList, "c".toList, "d".toList, "A".toList, []⟩

/-- A question with a 301-code-point text (forces the hybrid path) and an
empty first option. -/
def qLong : Question :=
  ⟨List.replicate 301 'x', [], "b".toList, "c".toList, "d".toList, "B".toList, []⟩

/-- A question whose text is a single space (blank after stripping). -/
def qBlank : Question :=
  ⟨[' '], "a".toList, "b".toList, "c".toList, "d".toList, "A".toList, []⟩

/-- The spec example with an unrecognized correct designator. -/
def qZ : Question :=
  ⟨"Q?".toList, "a1".toList, "b1".toList, "c1".toList, "d1".toList, "Z".toList, []⟩

/-- An environment where the quote fetch raises and the promotional send fails. -/
def envQuiet : Env := ⟨Except.error [], false⟩

/-- An environment where the quote fetch returns no quotes and the
promotional send succeeds. -/
def envOk : Env := ⟨Except.ok [], true⟩

/-- An environment whose only sampled quote is 151 code points long. -/
def envLongQuote : Env := ⟨Except.ok [List.replicate 151 'q'], true⟩

/-- An environment whose first sampled quote is short. -/
def envShortQuote : Env := ⟨Except.ok ["hi".toList], true⟩

/-- Four plain nonempty options. -/
def fourOpts : List Str := ["a".toList, "b".toList, "c".toList, "d".toList]

/-- The eight recognized correct designators. -/
def correctDesignators : List Str :=
  [['A'], ['B'], ['C'], ['D'], ['a'], ['b'], ['c'], ['d']]

/-- The prompt of the poll sent for `qEx`. -/
def pEx : Str := "Capital of Gujarat?".toList

/-- The options of the poll sent for `qEx`. -/
def oEx : List Str := processedOptions (questionOptions qEx)

/-- The trace of sends produced for `qEx` under `envOk`. -/
def tEx : List Send :=
  Send.poll pEx oEx quizType 1 ::
    (explanationSends qEx.explanation ++ send_promotional_message envOk)

/-! Helper lemmas about stripping, options, and the two dispatch branches. -/

lemma length_pyStrip_le (s : Str) : (pyStrip s).length ≤ s.length :=
  le_trans (List.IsPrefix.length_le (List.rdropWhile_prefix _ _))
    (List.IsSuffix.length_le (List.dropWhile_suffix _))

lemma head_not_ws_of_dropWhile_eq {p : Char → Bool} {l t : Str} {a : Char}
    (h : List.dropWhile p l = a :: t) : p a = false := by
  have hh := List.head?_dropWhile_not p l
  rw [h] at hh
  simpa using hh

lemma pyStrip_dropWhile_eq (s : Str) :
    List.dropWhile Char.isWhitespace (pyStrip s) = pyStrip s := by
  cases h : pyStrip s with
  | nil => simp
  | cons a z =>
    have hpre : pyStrip s <+: List.dropWhile Char.isWhitespace s :=
      List.rdropWhile_prefix _ _
    obtain ⟨t, ht⟩ := hpre
    have hds : List.dropWhile Char.isWhitespace s = a :: (z ++ t) := by
      rw [← ht, h, List.cons_append]
    have ha : Char.isWhitespace a = false := head_not_ws_of_dropWhile_eq hds
    simp [List.dropWhile_cons, ha]

lemma pyStrip_idem (s : Str) : pyStrip (pyStrip s) = pyStrip s := by
  conv_lhs => rw [pyStrip]
  rw [pyStrip_dropWhile_eq]
  conv_lhs => rw [pyStrip]
  exact List.rdropWhile_idempotent _ _

lemma correct_map_lt_four (c : Str) : correct_map c < 4 := by
  unfold correct_map
  split_ifs <;> omega

lemma processedOptions_length (l : List Str) :
    (processedOptions l).length = l.length := by
  simp [processedOptions]

lemma stripTruncOption_length_le (opt : Str) :
    (stripTruncOption opt).length ≤ 100 := by
  have h3 : ("...".toList : Str).length = 3 := rfl
  unfold stripTruncOption TELEGRAM_POLL_OPTION_LIMIT
  split_ifs with h
  · simp only [List.length_append, List.length_take, h3]
    omega
  · omega

lemma stripTruncOption_ne_nil (opt : Str) (h : pyStrip opt ≠ []) :
    stripTruncOption opt ≠ [] := by
  have h3 : ("...".toList : Str).length = 3 := rfl
  unfold stripTruncOption
  split_ifs with hl
  · intro hc
    have hlen := congrArg List.length hc
    simp only [List.length_append, List.length_take, h3, List.length_nil] at hlen
    omega
  · exact h

lemma optionPlaceholder_facts :
    ∀ i : Nat, i < 4 →
      pyStrip (optionPlaceholder i) = optionPlaceholder i ∧
        (optionPlaceholder i).length = 8 := by decide

lemma processOption_ne_nil_and_le (i : Nat) (hi : i < 4) (opt : Str) :
    processOption i opt ≠ [] ∧ (processOption i opt).length ≤ 100 := by
  unfold processOption
  split_ifs with hs
  · refine ⟨stripTruncOption_ne_nil _ ?_, stripTruncOption_length_le _⟩
    rw [(optionPlaceholder_facts i hi).1]
    intro hc
    have h8 := (optionPlaceholder_facts i hi).2
    rw [hc] at h8
    simp at h8
  · exact ⟨stripTruncOption_ne_nil _ hs, stripTruncOption_length_le _⟩

lemma processOption_of_blank (i : Nat) (hi : i < 4) (opt : Str)
    (h : pyStrip opt = []) : processOption i opt = optionPlaceholder i := by
  simp [processOption, h, stripTruncOption, (optionPlaceholder_facts i hi).1,
    (optionPlaceholder_facts i hi).2, TELEGRAM_POLL_OPTION_LIMIT]

lemma processedOptions_four (a b c d : Str) :
    processedOptions [a, b, c, d] =
      [processOption 0 a, processOption 1 b, processOption 2 c, processOption 3 d] := by
  simp [processedOptions, List.enum, List.enumFrom]

lemma mem_processedOptions_four {x a b c d : Str}
    (hx : x ∈ processedOptions [a, b, c, d]) : x ≠ [] ∧ x.length ≤ 100 := by
  rw [processedOptions_four] at hx
  simp only [List.mem_cons, List.not_mem_nil, or_false] at hx
  rcases hx with h | h | h | h <;> subst h
  · exact processOption_ne_nil_and_le 0 (by omega) a
  · exact processOption_ne_nil_and_le 1 (by omega) b
  · exact processOption_ne_nil_and_le 2 (by omega) c
  · exact processOption_ne_nil_and_le 3 (by omega) d

lemma pollPrompt_of_short (qt : Str) (h : qt.length ≤ TELEGRAM_POLL_QUESTION_LIMIT) :
    pollPrompt qt = pyStrip qt := by
  unfold pollPrompt
  rw [if_neg]
  have := length_pyStrip_le qt
  omega

lemma send_telegram_poll_ok (qt : Str) (opts : List Str) (ci : Int)
    (hne : pyStrip qt ≠ []) (hlen : opts.length = 4)
    (h0 : 0 ≤ ci) (h4 : ci < 4) :
    send_telegram_poll qt opts ci =
      Except.ok (Send.poll (pollPrompt qt) (processedOptions opts) quizType ci) := by
  unfold send_telegram_poll
  rw [if_neg hne,
    if_neg (by rw [processedOptions_length, hlen]; omega),
    if_neg (by rw [processedOptions_length, hlen]; omega)]

lemma mem_explanationSends {s : Send} {e : Str} (h : s ∈ explanationSends e) :
    ∃ m, s = Send.message m := by
  unfold explanationSends at h
  split_ifs at h
  · simp at h
  · simp only [List.mem_singleton] at h
    exact ⟨_, h⟩

lemma mem_promoSends {s : Send} {env : Env} (h : s ∈ send_promotional_message env) :
    ∃ m, s = Send.message m := by
  by_cases hp : env.promoSendOk
  · simp only [send_promotional_message, send_promotional_message_attempt, hp,
      if_true, List.mem_singleton] at h
    exact ⟨_, h⟩
  · simp [send_promotional_message, send_promotional_message_attempt, hp] at h

lemma correctIndex_cast_nonneg (q : Question) : (0 : Int) ≤ (correctIndex q : Int) :=
  Int.natCast_nonneg _

lemma correctIndex_cast_lt (q : Question) : (correctIndex q : Int) < 4 := by
  have h := correct_map_lt_four (pyStrip q.correct)
  exact_mod_cast h

lemma format_direct (q : Question) (env : Env)
    (hq : q.question.length ≤ TELEGRAM_POLL_QUESTION_LIMIT)
    (ho : maxOptionLength q ≤ TELEGRAM_POLL_OPTION_LIMIT)
    (hne : pyStrip q.question ≠ []) :
    format_and_send_question q env =
      Except.ok (Send.poll (pyStrip q.question) (processedOptions (questionOptions q))
        quizType (correctIndex q : Int) ::
        (explanationSends q.explanation ++ send_promotional_message env)) := by
  have hsend : send_telegram_poll q.question (questionOptions q) (correctIndex q : Int) =
      Except.ok (Send.poll (pyStrip q.question) (processedOptions (questionOptions q))
        quizType (correctIndex q : Int)) := by
    rw [send_telegram_poll_ok q.question (questionOptions q) (correctIndex q : Int)
      hne rfl (correctIndex_cast_nonneg q) (correctIndex_cast_lt q),
      pollPrompt_of_short q.question hq]
  unfold format_and_send_question
  rw [if_pos ⟨hq, ho⟩, hsend]

lemma format_direct_empty (q : Question) (env : Env)
    (hq : q.question.length ≤ TELEGRAM_POLL_QUESTION_LIMIT)
    (ho : maxOptionLength q ≤ TELEGRAM_POLL_OPTION_LIMIT)
    (he : pyStrip q.question = []) :
    format_and_send_question q env = Except.error emptyQuestionError := by
  unfold format_and_send_question
  rw [if_pos ⟨hq, ho⟩]
  unfold send_telegram_poll
  rw [if_pos he]

lemma pollPrompt_generic : pollPrompt genericPollPrompt = genericPollPrompt := by decide

lemma format_hybrid (q : Question) (env : Env)
    (h : ¬(q.question.length ≤ TELEGRAM_POLL_QUESTION_LIMIT ∧
        maxOptionLength q ≤ TELEGRAM_POLL_OPTION_LIMIT)) :
    format_and_send_question q env =
      Except.ok (Send.message (questionHeader ++ hybridQuestionText q.question) ::
        Send.poll genericPollPrompt
          (processedOptions ((questionOptions q).map hybridOption))
          quizType (correctIndex q : Int) ::
        (explanationSends q.explanation ++ send_promotional_message env)) := by
  have hsend : send_telegram_poll genericPollPrompt
      ((questionOptions q).map hybridOption) (correctIndex q : Int) =
      Except.ok (Send.poll genericPollPrompt
        (processedOptions ((questionOptions q).map hybridOption))
        quizType (correctIndex q : Int)) := by
    rw [send_telegram_poll_ok genericPollPrompt ((questionOptions q).map hybridOption)
      (correctIndex q : Int) (by decide) (by simp [questionOptions])
      (correctIndex_cast_nonneg q) (correctIndex_cast_lt q), pollPrompt_generic]
  unfold format_and_send_question
  rw [if_neg h, hsend]

lemma findShortQuote_le {l : List Str} {q : Str} (h : findShortQuote l = some q) :
    q.length ≤ 150 := by
  induction l with
  | nil => simp [findShortQuote] at h
  | cons a t ih =>
    unfold findShortQuote at h
    split_ifs at h with hc
    · simp only [Option.some.injEq] at h
      subst h
      exact hc.2
    · exact ih h

/-- Claim C4: an explanation longer than the 4096-code-point message limit is
sent truncated, with the truncation marker appended, and the sent explanation
never exceeds the limit; an explanation within the limit is sent unmodified. -/
theorem c4_explanation_truncation (e : Str) :
    (e.length > TELEGRAM_MESSAGE_LIMIT →
      sentExplanation e =
        e.take (TELEGRAM_MESSAGE_LIMIT - 50) ++ explanationTruncMarker ∧
      (sentExplanation e).length ≤ TELEGRAM_MESSAGE_LIMIT) ∧
    (e.length ≤ TELEGRAM_MESSAGE_LIMIT → sentExplanation e = e) := by
  constructor
  · intro h
    have heq : sentExplanation e =
        e.take (TELEGRAM_MESSAGE_LIMIT - 50) ++ explanationTruncMarker := by
      unfold sentExplanation truncate_explanation
      rw [if_pos h, if_neg (by omega)]
    refine ⟨heq, ?_⟩
    rw [heq]
    have hm : explanationTruncMarker.length ≤ 50 := by decide
    simp only [List.length_append, List.length_take]
    unfold TELEGRAM_MESSAGE_LIMIT at h ⊢
    omega
  · intro h
    unfold sentExplanation
    rw [if_neg (by omega)]

/-- Witness for C4 at a concrete 4097-code-point explanation. -/
theorem c4_explanation_truncation_witness :
    (List.replicate 4097 'a').length > TELEGRAM_MESSAGE_LIMIT ∧
    sentExplanation (List.replicate 4097 'a') =
      (List.replicate 4097 'a').take (TELEGRAM_MESSAGE_LIMIT - 50) ++
        explanationTruncMarker ∧
    (sentExplanation (List.replicate 4097 'a')).length ≤ TELEGRAM_MESSAGE_LIMIT := by
  have h : (List.replicate 4097 'a').length > TELEGRAM_MESSAGE_LIMIT := by
    rw [List.length_replicate]
    unfold TELEGRAM_MESSAGE_LIMIT
    omega
  obtain ⟨h1, h2⟩ := (c4_explanation_truncation (List.replicate 4097 'a')).1 h
  exact ⟨h, h1, h2⟩

/-- Claim C5: under the data contract (four options, correct index in 0..3)
the option-count and correct-index failure branches of `send_telegram_poll`
are unreachable: the only possible error is the empty-question one. -/
theorem c5_poll_failure_unreachable (qt : Str) (opts : List Str) (ci : Int) (e : Str)
    (hlen : opts.length = 4) (h0 : 0 ≤ ci) (h4 : ci < 4)
    (herr : send_telegram_poll qt opts ci = Except.error e) :
    e = emptyQuestionError := by
  by_cases hne : pyStrip qt = []
  · unfold send_telegram_poll at herr
    rw [if_pos hne] at herr
    injection herr with h
    exact h.symm
  · rw [send_telegram_poll_ok qt opts ci hne hlen h0 h4] at herr
    simp at herr

/-- Witness for C5: a blank question with four good options errors with the
empty-question message, never the other two. -/
theorem c5_poll_failure_unreachable_witness :
    fourOpts.length = 4 ∧ (0 : Int) ≤ 0 ∧ (0 : Int) < 4 ∧
    send_telegram_poll [] fourOpts 0 = Except.error emptyQuestionError ∧
    emptyQuestionError = emptyQuestionError :=
  ⟨by decide, by decide, by decide, rfl,
    c5_poll_failure_unreachable [] fourOpts 0 emptyQuestionError
      (by decide) (by decide) (by decide) rfl⟩

/-- Claim C6: an unrecognized correct designator falls back silently to
index 0, and the whole send sequence proceeds exactly as it would with the
recognized designator for index 0. -/
theorem c6_unrecognized_correct_fallback (q : Question) (env : Env)
    (h : pyStrip q.correct ∉ correctDesignators) :
    correctIndex q = 0 ∧
    format_and_send_question q env =
      format_and_send_question { q with correct := ['a'] } env := by
  have h0 : correctIndex q = 0 := by
    unfold correctIndex correct_map
    simp only [correctDesignators, List.mem_cons, List.not_mem_nil, or_false,
      not_or] at h
    obtain ⟨hA, hB, hC, hD, ha, hb, hc, hd⟩ := h
    rw [if_neg hA, if_neg hB, if_neg hC, if_neg hD, if_neg ha, if_neg hb,
      if_neg hc, if_neg hd]
  have h0' : correctIndex { q with correct := ['a'] } = 0 := rfl
  refine ⟨h0, ?_⟩
  unfold format_and_send_question
  rw [h0, h0']
  rfl

/-- Witness for C6 at the designator Z of the spec. -/
theorem c6_unrecognized_correct_fallback_witness :
    pyStrip qZ.correct ∉ correctDesignators ∧
    (correctIndex qZ = 0 ∧
      format_and_send_question qZ envOk =
        format_and_send_question { qZ with correct := ['a'] } envOk) :=
  ⟨by decide, c6_unrecognized_correct_fallback qZ envOk (by decide)⟩

/-- Claim C7: the designator-to-index mapping is case-insensitive on A-D,
and in particular both b and B map to index 1. -/
theorem c7_correct_case_insensitive :
    correct_map ['a'] = correct_map ['A'] ∧ correct_map ['A'] = 0 ∧
    correct_map ['b'] = correct_map ['B'] ∧ correct_map ['B'] = 1 ∧
    correct_map ['c'] = correct_map ['C'] ∧ correct_map ['C'] = 2 ∧
    correct_map ['d'] = correct_map ['D'] ∧ correct_map ['D'] = 3 := by decide

/-- Claim C8: a failed promotional send is caught and swallowed, and the
whole run factors as the primary sends followed by the promotional sends:
neither a quote-fetch failure nor a promotional-send failure changes the
success of the run or any earlier send. -/
theorem c8_promo_failure_swallowed :
    (∀ (env : Env) (e : Str),
      send_promotional_message_attempt env = Except.error e →
      send_promotional_message env = []) ∧
    (∀ (q : Question) (env : Env),
      format_and_send_question q env =
        Except.map (fun t => t ++ send_promotional_message env) (primarySends q)) := by
  constructor
  · intro env e h
    unfold send_promotional_message
    rw [h]
  · intro q env
    unfold format_and_send_question primarySends
    split_ifs with hc
    · cases h : send_telegram_poll q.question (questionOptions q)
          (correctIndex q : Int) <;> simp [h, Except.map]
    · cases h : send_telegram_poll genericPollPrompt
          ((questionOptions q).map hybridOption) (correctIndex q : Int) <;>
        simp [h, Except.map]

/-- Witness for C8 at an environment whose promotional send fails. -/
theorem c8_promo_failure_swallowed_witness :
    send_promotional_message_attempt envQuiet =
      Except.error "promotional send failed".toList ∧
    send_promotional_message envQuiet = [] :=
  ⟨rfl, c8_promo_failure_swallowed.1 envQuiet "promotional send failed".toList rfl⟩

/-- Claim C10: on the direct-poll path (lengths within the poll limits), a
question text that is empty or whitespace-only makes the run abort with the
empty-question error before anything is published. -/
theorem c10_empty_question_aborts (q : Question) (env : Env)
    (hq : q.question.length ≤ TELEGRAM_POLL_QUESTION_LIMIT)
    (ho : maxOptionLength q ≤ TELEGRAM_POLL_OPTION_LIMIT)
    (he : pyStrip q.question = []) :
    format_and_send_question q env = Except.error emptyQuestionError :=
  format_direct_empty q env hq ho he

/-- Witness for C10 at a single-space question. -/
theorem c10_empty_question_aborts_witness :
    qBlank.question.length ≤ TELEGRAM_POLL_QUESTION_LIMIT ∧
    maxOptionLength qBlank ≤ TELEGRAM_POLL_OPTION_LIMIT ∧
    pyStrip qBlank.question = [] ∧
    format_and_send_question qBlank envQuiet = Except.error emptyQuestionError :=
  ⟨by decide, by decide, by decide,
    c10_empty_question_aborts qBlank envQuiet (by decide) (by decide) (by decide)⟩

/-- Counterexample to C1 as stated: for the question with a leading space
(length 2, all options short), a poll is sent, but its prompt is the stripped
text x rather than the original question text. -/
theorem c1_poll_not_verbatim_counterexample :
    format_and_send_question qPad envQuiet =
      Except.ok [Send.poll ['x']
        ["a".toList, "b".toList, "c".toList, "d".toList] quizType 0] ∧
    (['x'] : Str) ≠ qPad.question := by
  exact ⟨rfl, by decide⟩

/-- Claim C1 (amended): for a Question within both poll limits whose question
text is not blank, the run issues the poll first, with the stripped question
text as prompt, the four options processed by the poll sender (stripped, with
placeholders for blank ones), quiz type, and the computed correct index; all
remaining sends are plain messages (the explanation and promotional ones), so
no separate question-text message is sent on this path. -/
theorem c1_direct_poll_amended (q : Question) (env : Env)
    (hq : q.question.length ≤ TELEGRAM_POLL_QUESTION_LIMIT)
    (ho : maxOptionLength q ≤ TELEGRAM_POLL_OPTION_LIMIT)
    (hne : pyStrip q.question ≠ []) :
    format_and_send_question q env =
      Except.ok (Send.poll (pyStrip q.question) (processedOptions (questionOptions q))
        quizType (correctIndex q : Int) ::
        (explanationSends q.explanation ++ send_promotional_message env)) ∧
    ∀ s ∈ explanationSends q.explanation ++ send_promotional_message env,
      ∃ m, s = Send.message m := by
  refine ⟨format_direct q env hq ho hne, ?_⟩
  intro s hs
  rcases List.mem_append.mp hs with h | h
  · exact mem_explanationSends h
  · exact mem_promoSends h

/-- Witness for C1 at the worked example of the spec. -/
theorem c1_direct_poll_amended_witness :
    pyStrip qEx.question ≠ [] ∧
    (format_and_send_question qEx envOk =
      Except.ok (Send.poll (pyStrip qEx.question)
        (processedOptions (questionOptions qEx))
        quizType (correctIndex qEx : Int) ::
        (explanationSends qEx.explanation ++ send_promotional_message envOk)) ∧
    ∀ s ∈ explanationSends qEx.explanation ++ send_promotional_message envOk,
      ∃ m, s = Send.message m) :=
  ⟨by decide, c1_direct_poll_amended qEx envOk (by decide) (by decide) (by decide)⟩

/-- Counterexample to C2 as stated: for a 301-code-point question with an
empty first option, the poll options are not merely the four options
independently truncated to the option limit: the empty option is replaced
with the placeholder Option A by the poll sender. -/
theorem c2_hybrid_options_counterexample :
    format_and_send_question qLong envQuiet =
      Except.ok [Send.message (questionHeader ++ List.replicate 301 'x'),
        Send.poll genericPollPrompt
          ["Option A".toList, "b".toList, "c".toList, "d".toList] quizType 1] ∧
    ("Option A".toList : Str) ≠ hybridOption qLong.option_a := by
  exact ⟨rfl, by decide⟩

/-- Claim C2 (amended): for a Question violating either length bound, the run
issues exactly one question-text message (possibly truncated with a marker)
followed by exactly one poll with the fixed generic prompt, whose options are
the four options each independently truncated to the option limit and then
processed by the poll sender (stripped, with placeholders for blank ones), in
that order; all remaining sends are plain messages. -/
theorem c2_hybrid_amended (q : Question) (env : Env)
    (h : ¬(q.question.length ≤ TELEGRAM_POLL_QUESTION_LIMIT ∧
        maxOptionLength q ≤ TELEGRAM_POLL_OPTION_LIMIT)) :
    format_and_send_question q env =
      Except.ok (Send.message (questionHeader ++ hybridQuestionText q.question) ::
        Send.poll genericPollPrompt
          (processedOptions ((questionOptions q).map hybridOption))
          quizType (correctIndex q : Int) ::
        (explanationSends q.explanation ++ send_promotional_message env)) ∧
    ∀ s ∈ explanationSends q.explanation ++ send_promotional_message env,
      ∃ m, s = Send.message m := by
  refine ⟨format_hybrid q env h, ?_⟩
  intro s hs
  rcases List.mem_append.mp hs with h1 | h1
  · exact mem_explanationSends h1
  · exact mem_promoSends h1

/-- Witness for C2 at the 301-code-point question. -/
theorem c2_hybrid_amended_witness :
    ¬(qLong.question.length ≤ TELEGRAM_POLL_QUESTION_LIMIT ∧
        maxOptionLength qLong ≤ TELEGRAM_POLL_OPTION_LIMIT) ∧
    (format_and_send_question qLong envOk =
      Except.ok (Send.message (questionHeader ++ hybridQuestionText qLong.question) ::
        Send.poll genericPollPrompt
          (processedOptions ((questionOptions qLong).map hybridOption))
          quizType (correctIndex qLong : Int) ::
        (explanationSends qLong.explanation ++ send_promotional_message envOk)) ∧
    ∀ s ∈ explanationSends qLong.explanation ++ send_promotional_message envOk,
      ∃ m, s = Send.message m) :=
  ⟨by decide, c2_hybrid_amended qLong envOk (by decide)⟩

/-- Counterexample to C3 as stated: when the sampled set holds no quote of
length at most 150, the quote is not omitted: the first quote is returned
truncated, not dropped. -/
theorem c3_quote_not_omitted_counterexample :
    (∀ t ∈ [List.replicate 151 'q'], ¬(t ≠ [] ∧ t.length ≤ 150)) ∧
    fetch_random_quote envLongQuote =
      some (List.replicate 147 'q' ++ "...".toList) ∧
    fetch_random_quote envLongQuote ≠ none := by
  refine ⟨by decide, rfl, by decide⟩

/-- Claim C3 (amended): every quote selected for the promotional message has
length at most 150; when no nonempty quote of length at most 150 exists in
the sampled set, the quote is not omitted: the first sampled quote is used,
truncated to 150 code points with an ellipsis when longer. -/
theorem c3_quote_length_amended :
    (∀ (env : Env) (q : Str), fetch_random_quote env = some q → q.length ≤ 150) ∧
    (∀ (quotes : List Str) (b : Bool), quotes ≠ [] → findShortQuote quotes = none →
      fetch_random_quote ⟨Except.ok quotes, b⟩ =
        some (if (quotes.headD []).length > 150
              then (quotes.headD []).take 147 ++ "...".toList
              else quotes.headD [])) := by
  constructor
  · intro env q h
    unfold fetch_random_quote at h
    rcases henv : env.quotesFetch with e | quotes
    · rw [henv] at h
      simp at h
    · rw [henv] at h
      simp only [] at h
      by_cases hq : quotes = []
      · rw [if_pos hq] at h
        simp at h
      · rw [if_neg hq] at h
        rcases hf : findShortQuote quotes with _ | q'
        · rw [hf] at h
          simp only [Option.some.injEq] at h
          subst h
          by_cases hl : (quotes.headD []).length > 150
          · rw [if_pos hl]
            have h3 : ("...".toList : Str).length = 3 := rfl
            simp only [List.length_append, List.length_take, h3]
            omega
          · rw [if_neg hl]
            omega
        · rw [hf] at h
          simp only [Option.some.injEq] at h
          subst h
          exact findShortQuote_le hf
  · intro quotes b hne hf
    have step : fetch_random_quote ⟨Except.ok quotes, b⟩ =
        if quotes = [] then none
        else match findShortQuote quotes with
          | some q => some q
          | none => some (if (quotes.headD []).length > 150
                          then (quotes.headD []).take 147 ++ "...".toList
                          else quotes.headD []) := rfl
    rw [step, if_neg hne, hf]

/-- Witness for C3 at a sampled set holding one short quote. -/
theorem c3_quote_length_amended_witness :
    fetch_random_quote envShortQuote = some "hi".toList ∧
    ("hi".toList : Str).length ≤ 150 :=
  ⟨rfl, c3_quote_length_amended.1 envShortQuote "hi".toList rfl⟩

/-- Claim C9: every poll actually sent, on either path, has a nonempty,
stripped prompt of length at most the poll question limit; exactly four
options, all produced by the poll sender's processing (so blank inputs are
replaced positionally by the placeholders, per the second part), each
nonempty and of length at most the option limit; and a correct index
between 0 and 3. -/
theorem c9_sent_poll_invariant :
    (∀ (q : Question) (env : Env) (trace : List Send),
      format_and_send_question q env = Except.ok trace →
      ∀ p o ty ci, Send.poll p o ty ci ∈ trace →
        p ≠ [] ∧ pyStrip p = p ∧ p.length ≤ TELEGRAM_POLL_QUESTION_LIMIT ∧
        o.length = 4 ∧
        (∀ x ∈ o, x ≠ [] ∧ x.length ≤ TELEGRAM_POLL_OPTION_LIMIT) ∧
        (∃ ins, ins.length = 4 ∧ o = processedOptions ins) ∧
        0 ≤ ci ∧ ci < 4 ∧ ty = quizType) ∧
    (∀ (i : Nat) (opt : Str), i < 4 → pyStrip opt = [] →
      processOption i opt = optionPlaceholder i) := by
  constructor
  · intro q env trace hfmt p o ty ci hmem
    by_cases hc : q.question.length ≤ TELEGRAM_POLL_QUESTION_LIMIT ∧
        maxOptionLength q ≤ TELEGRAM_POLL_OPTION_LIMIT
    · by_cases he : pyStrip q.question = []
      · rw [format_direct_empty q env hc.1 hc.2 he] at hfmt
        simp at hfmt
      · rw [format_direct q env hc.1 hc.2 he] at hfmt
        simp only [Except.ok.injEq] at hfmt
        subst hfmt
        rcases List.mem_cons.mp hmem with heq | hrest
        · simp only [Send.poll.injEq] at heq
          obtain ⟨hp, ho2, ht, hc2⟩ := heq
          subst hp
          subst ho2
          subst ht
          subst hc2
          refine ⟨he, pyStrip_idem _, le_trans (length_pyStrip_le _) hc.1,
            ?_, ?_, ?_, correctIndex_cast_nonneg q, correctIndex_cast_lt q, rfl⟩
          · rw [processedOptions_length]
            rfl
          · intro x hx
            have hqo : questionOptions q =
                [q.option_a, q.option_b, q.option_c, q.option_d] := rfl
            rw [hqo] at hx
            exact mem_processedOptions_four hx
          · exact ⟨questionOptions q, rfl, rfl⟩
        · rcases List.mem_append.mp hrest with h1 | h1
          · obtain ⟨m, hm⟩ := mem_explanationSends h1
            simp at hm
          · obtain ⟨m, hm⟩ := mem_promoSends h1
            simp at hm
    · rw [format_hybrid q env hc] at hfmt
      simp only [Except.ok.injEq] at hfmt
      subst hfmt
      rcases List.mem_cons.mp hmem with heq | hrest
      · simp at heq
      · rcases List.mem_cons.mp hrest with heq | hrest2
        · simp only [Send.poll.injEq] at heq
          obtain ⟨hp, ho2, ht, hc2⟩ := heq
          subst hp
          subst ho2
          subst ht
          subst hc2
          refine ⟨by decide, by decide, by decide, ?_, ?_, ?_,
            correctIndex_cast_nonneg q, correctIndex_cast_lt q, rfl⟩
          · rw [processedOptions_length]
            simp [questionOptions]
          · intro x hx
            have hqo : (questionOptions q).map hybridOption =
                [hybridOption q.option_a, hybridOption q.option_b,
                  hybridOption q.option_c, hybridOption q.option_d] := rfl
            rw [hqo] at hx
            exact mem_processedOptions_four hx
          · exact ⟨(questionOptions q).map hybridOption, by simp [questionOptions], rfl⟩
        · rcases List.mem_append.mp hrest2 with h1 | h1
          · obtain ⟨m, hm⟩ := mem_explanationSends h1
            simp at hm
          · obtain ⟨m, hm⟩ := mem_promoSends h1
            simp at hm
  · intro i opt hi h
    exact processOption_of_blank i hi opt h

/-- Witness for C9 at the spec example: its run sends the poll at the head
of the trace and that poll satisfies the invariant. -/
theorem c9_sent_poll_invariant_witness :
    format_and_send_question qEx envOk = Except.ok tEx ∧
    Send.poll pEx oEx quizType 1 ∈ tEx ∧
    (pEx ≠ [] ∧ pyStrip pEx = pEx ∧ pEx.length ≤ TELEGRAM_POLL_QUESTION_LIMIT ∧
      oEx.length = 4 ∧
      (∀ x ∈ oEx, x ≠ [] ∧ x.length ≤ TELEGRAM_POLL_OPTION_LIMIT) ∧
      (∃ ins, ins.length = 4 ∧ oEx = processedOptions ins) ∧
      (0 : Int) ≤ 1 ∧ (1 : Int) < 4 ∧ quizType = quizType) :=
  ⟨rfl, List.mem_cons_self _ _,
    c9_sent_poll_invariant.1 qEx envOk tEx rfl pEx oEx quizType 1
      (List.mem_cons_self _ _)⟩
